import Mathlib

/-!
Shallow embedding of the serializer and source-synthesis core of the
`vertex_model` experimental subsystem:

* `google/cloud/aiplatform/experimental/vertex_model/serializers/pytorch.py`
* `google/cloud/aiplatform/experimental/vertex_model/utils/source_utils.py`

Python strings are modelled as `List Char` (`Str`), optional values as
`Option`, and raised exceptions as `Except` results.  Side effects
(`torch.save`, blob uploads) are returned as an explicit effect list, and the
temporary-directory lifecycle of deserialization is threaded through an
explicit state.
-/

/-- Python strings are modelled as lists of characters. -/
abbrev Str := List Char

/-- Boolean prefix test; model of Python `str.startswith(pat)` applied as
`isPre pat s`. -/
def isPre : Str → Str → Bool
  | [], _ => true
  | _ :: _, [] => false
  | p :: ps, a :: as => if a = p then isPre ps as else false

/-- The remote-storage scheme marker. -/
def gsMark : Str := ("gs://".toList)

/-- Model of `s.startswith("gs://")`, the sole local/remote discriminator. -/
def startsWithGs (s : Str) : Bool := isPre gsMark s

/-- Python truthiness of an optional string: `None` and the empty string are
falsy, every other string is truthy. -/
def truthy : Option Str → Bool
  | none => false
  | some s => !s.isEmpty

/-- Model of the Python condition `root and root.startswith("gs://")` used at
pytorch.py line 161 to pick the serialization strategy. -/
def rootIsRemote : Option Str → Bool
  | none => false
  | some r => !r.isEmpty && startsWithGs r

/-- Split at the first occurrence of `c`; model of Python `s.split(c, 1)`.
The second component is `some rest` exactly when a separator was found. -/
def splitFirst (c : Char) : Str → Str × Option Str
  | [] => ([], none)
  | a :: rest =>
    if a = c then ([], some rest)
    else
      let r := splitFirst c rest
      (a :: r.1, r.2)

/-- Split on every occurrence of `c`; model of Python `s.split(c)`. -/
def splitOnC (c : Char) : Str → List Str
  | [] => [[]]
  | a :: rest =>
    if a = c then [] :: splitOnC c rest
    else
      match splitOnC c rest with
      | [] => [[a]]
      | l :: ls => (a :: l) :: ls

/-- Join a list of strings with separator character `c`; model of Python
`c.join(parts)`. -/
def joinC (c : Char) : List Str → Str
  | [] => []
  | [l] => l
  | l :: l2 :: ls => l ++ c :: joinC c (l2 :: ls)

/-- Modelled from the spec: `utils.extract_bucket_and_prefix_from_gcs_path`
is repository code that is not under `src/`.  Per spec §4.1 a string carrying
the scheme marker parses into bucket and blob-path parts "by splitting at the
first path separator after the scheme+bucket segment", and the worked example
of spec §8 (`serialize("gs://bkt/out/", ...)` placing blobs directly under
`out/`) forces one trailing path separator to be stripped before the split. -/
def extract_bucket_and_pre (s : Str) : Str × Option Str :=
  let s1 := if startsWithGs s then s.drop 5 else s
  let s2 := if s1.getLast? = some '/' then s1.dropLast else s1
  splitFirst '/' s2

/-- Reassemble a remote URI from bucket name and blob path, as built at
pytorch.py lines 125-127. -/
def gsUri (bucket blobPath : Str) : Str := gsMark ++ bucket ++ '/' :: blobPath

/-- The serialized-artifact file name `"my_" + dataset_type +
"_dataloader.pth"` used throughout pytorch.py. -/
def mySuffix (dataset_type : Str) : Str :=
  ("my_".toList) ++ dataset_type ++ ("_dataloader.pth".toList)

/-- Final path component, modelling `pathlib.Path(p).name` (the last
nonempty `/`-separated component). -/
def basename (s : Str) : Str :=
  ((splitOnC '/' s).filter (fun p => !p.isEmpty)).getLastD []

/-- Model of the underlying torch dataset.  `rootAttr = none` models a
dataset with no `root` attribute at all; `rootAttr = some v` models a present
attribute whose value is `v` (Python `None` or a string), so that the code's
`getattr(my_dataset, "root", None)` is `rootAttr.getD none`.  The contents
are opaque to the serializers. -/
structure Dataset where
  rootAttr : Option (Option Str)
  contents : List Int
deriving DecidableEq

/-- Model of `torch.utils.data.DataLoader`: the wrapped dataset plus its
iteration configuration. -/
structure DataLoader where
  dataset : Dataset
  batchSize : Nat
  shuffle : Bool
deriving DecidableEq

/-- The `getattr(obj.dataset, "root", None)` read at pytorch.py line 158. -/
def getRoot (obj : DataLoader) : Option Str :=
  obj.dataset.rootAttr.getD none

/-- Observable side effects of the serializers: a local `torch.save`, an
upload of an existing local file to a blob, and the serialize-to-temp-file
then upload-and-delete combination. -/
inductive Effect where
  | saveLocal (path : Str) (obj : DataLoader)
  | uploadFromFile (bucket blobPath srcFile : Str)
  | tmpUpload (bucket blobPath : Str) (obj : DataLoader)
deriving DecidableEq

/-- Modelled from the spec: `serializer_utils.serialize_to_tmp_and_copy_to_gcs`
is repository code that is not under `src/`.  Per spec §4.2 the artifact is
serialized to a temporary local file with the given name, uploaded to the
bucket under the given blob-path part, the temporary file is deleted, and the
resulting remote location is returned (spec §8 example: target
`gs://bkt/out/` yields `gs://bkt/out/my_training_dataloader.pth`). -/
def serialize_to_tmp_and_copy_to_gcs (fname bucket : Str) (blobPre : Option Str)
    (obj : DataLoader) : Str × List Effect :=
  let blobPath :=
    match blobPre with
    | some p => p ++ '/' :: fname
    | none => fname
  (gsUri bucket blobPath, [Effect.tmpUpload bucket blobPath obj])

/-- Model of `_serialize_remote_dataloader` (pytorch.py lines 39-76): the
origin path is returned untouched and only the artifact itself is serialized
to a temporary file and uploaded to the target. -/
def serialize_remote_dataloader (artifact_uri : Str) (dataloader_path : Option Str)
    (obj : DataLoader) (dataset_type : Str) : (Str × Option Str) × List Effect :=
  let bp := extract_bucket_and_pre artifact_uri
  let r := serialize_to_tmp_and_copy_to_gcs (mySuffix dataset_type) bp.1 bp.2 obj
  ((r.1, dataloader_path), r.2)

/-- Model of `_serialize_local_dataloader` (pytorch.py lines 79-138).
A non-remote target takes the early return at lines 100-103: a direct
`torch.save` to `artifact_uri + "my_" + dataset_type + "_dataloader.pth"`
with the origin path passed through unchanged.  A remote target uploads the
origin file (when truthy) under `dataset_type + "_" + basename`, joined under
the blob-path part when that is truthy, then serializes the artifact through
a temporary file. -/
def serialize_local_dataloader (artifact_uri : Str) (dataloader_path : Option Str)
    (obj : DataLoader) (dataset_type : Str) : (Str × Option Str) × List Effect :=
  if startsWithGs artifact_uri then
    let bp := extract_bucket_and_pre artifact_uri
    if truthy dataloader_path then
      let dp := dataloader_path.getD []
      let dbp0 := dataset_type ++ '_' :: basename dp
      let data_blob_path :=
        if truthy bp.2 then (bp.2.getD []) ++ '/' :: dbp0 else dbp0
      let data_gcs_path := gsUri bp.1 data_blob_path
      let r := serialize_to_tmp_and_copy_to_gcs (mySuffix dataset_type) bp.1 bp.2 obj
      ((r.1, some data_gcs_path), Effect.uploadFromFile bp.1 data_blob_path dp :: r.2)
    else
      let r := serialize_to_tmp_and_copy_to_gcs (mySuffix dataset_type) bp.1 bp.2 obj
      ((r.1, none), r.2)
  else
    let local_path := artifact_uri ++ mySuffix dataset_type
    ((local_path, dataloader_path), [Effect.saveLocal local_path obj])

/-- Model of `_serialize_dataloader` (pytorch.py lines 141-164): reads the
dataset's `root` attribute with a `None` default and dispatches on
`root and root.startswith("gs://")`. -/
def serialize_dataloader (artifact_uri : Str) (obj : DataLoader)
    (dataset_type : Str) : (Str × Option Str) × List Effect :=
  let root := getRoot obj
  if rootIsRemote root then
    serialize_remote_dataloader artifact_uri root obj dataset_type
  else
    serialize_local_dataloader artifact_uri root obj dataset_type

/-- Python exception values relevant to deserialization: the two caught
classes (`ValueError`, `RuntimeError`), the object-store adapter's own
errors, and anything else. -/
inductive PyErr where
  | valueError (m : Str)
  | runtimeError (m : Str)
  | networkError (m : Str)
  | otherError (m : Str)
deriving DecidableEq

deriving instance DecidableEq for Except

/-- The textual message of an exception (Python `str(err)`). -/
def PyErr.msg : PyErr → Str
  | .valueError m => m
  | .runtimeError m => m
  | .networkError m => m
  | .otherError m => m

/-- Whether the exception is caught by the clause
`except (ValueError, RuntimeError)` at pytorch.py line 200. -/
def PyErr.isCaught : PyErr → Bool
  | .valueError _ => true
  | .runtimeError _ => true
  | .networkError _ => false
  | .otherError _ => false

/-- ASCII apostrophe, used inside generated message and script text. -/
def quoteC : Char := Char.ofNat 39

/-- The message of the re-raised error at pytorch.py lines 201-205:
`"There was a problem reading the model at '{}': {}".format(artifact_uri, err)`. -/
def wrapMsg (artifact_uri : Str) (e : PyErr) : Str :=
  ("There was a problem reading the model at ".toList)
    ++ quoteC :: artifact_uri ++ quoteC :: ':' :: ' ' :: e.msg

/-- Environment supplying the outcomes of the external steps of
deserialization: `load p` is what `torch.load(p)` yields at local path `p`,
and `download b blob` is the outcome of
`bucket.blob(blob).download_to_filename(...)`. -/
structure TorchEnv where
  load : Str → Except PyErr DataLoader
  download : Str → Str → Except PyErr Unit

/-- Scoped-resource state: the currently allocated temporary directories and
a counter of how many were ever created. -/
structure FsState where
  tempDirs : List Nat
  counter : Nat
deriving DecidableEq

/-- The path `pathlib.Path(tmpdirname) / "deserialized_dataloader.pth"` for
temporary directory number `dir`. -/
def tmpFilePath (dir : Nat) : Str :=
  ("/tmp/pytmp".toList) ++ Nat.toDigits 10 dir
    ++ ("/deserialized_dataloader.pth".toList)

/-- The body of the `with tempfile.TemporaryDirectory()` block at pytorch.py
lines 195-198: download the blob into the temporary directory, then
`torch.load` the downloaded file.  The blob name is the part after the bucket
segment of the artifact URI (pytorch.py line 181). -/
def remoteBody (env : TorchEnv) (artifact_uri : Str) (st : FsState) :
    Except PyErr DataLoader :=
  let bp := extract_bucket_and_pre artifact_uri
  match env.download bp.1 (bp.2.getD []) with
  | .error e => .error e
  | .ok _ => env.load (tmpFilePath st.counter)

/-- The `except (ValueError, RuntimeError)` handler at pytorch.py lines
200-205: a caught body failure is re-raised as a `RuntimeError` carrying the
original location and the cause message; any other failure propagates
unmodified. -/
def handleRemoteErr (artifact_uri : Str) (body : Except PyErr DataLoader) :
    Except PyErr DataLoader :=
  match body with
  | .ok dl => .ok dl
  | .error e =>
    if e.isCaught then .error (.runtimeError (wrapMsg artifact_uri e))
    else .error e

/-- Model of `_deserialize_dataloader` (pytorch.py lines 167-208).  A local
location is passed straight to `torch.load`, with no handler around it.  A
remote location allocates a temporary directory, runs the download-and-load
body, and the `with` statement removes the directory on every exit path
before the result (or re-raised error) reaches the caller; the state
returned next to the result is the state at that point. -/
def deserialize_dataloader (env : TorchEnv) (artifact_uri : Str) (st : FsState) :
    Except PyErr DataLoader × FsState :=
  if startsWithGs artifact_uri then
    let dir := st.counter
    let acquired := dir :: st.tempDirs
    (handleRemoteErr artifact_uri (remoteBody env artifact_uri st),
     ⟨acquired.erase dir, st.counter + 1⟩)
  else
    (env.load artifact_uri, st)

/-- The local filesystem contents readable by `torch.load` after the recorded
`torch.save` effects have run on top of a base load function. -/
def applyEffects (effs : List Effect) (load0 : Str → Except PyErr DataLoader) :
    Str → Except PyErr DataLoader :=
  effs.foldl
    (fun ld e =>
      match e with
      | .saveLocal p o => fun q => if q = p then Except.ok o else ld q
      | _ => ld)
    load0

/-- How `inspect.ismethod` / `inspect.isfunction` classify an attribute of a
live instance. -/
inductive MemberKind where
  | boundMethod
  | plainFunction
  | nonCallable
deriving DecidableEq

/-- One attribute of a live instance as seen through reflection: its name,
its `inspect.getsource` text (meaningful only for callables), and its
classification. -/
structure Member where
  name : Str
  src : Str
  kind : MemberKind
deriving DecidableEq

/-- The filter at source_utils.py line 40:
`inspect.ismethod(value) or inspect.isfunction(value)`. -/
def includedMember (m : Member) : Bool :=
  match m.kind with
  | .boundMethod => true
  | .plainFunction => true
  | .nonCallable => false

/-- A live instance: its runtime class name and its attributes. -/
structure PyInstance where
  clsName : Str
  attrs : List Member
deriving DecidableEq

/-- Lexicographic string order, modelling the key order in which
`inspect.getmembers` enumerates attributes. -/
def strLe : Str → Str → Bool
  | [], _ => true
  | _ :: _, [] => false
  | a :: as, b :: bs => if a = b then strLe as bs else decide (a < b)

/-- Insertion step of the name-sorted enumeration. -/
def insertByName (m : Member) : List Member → List Member
  | [] => [m]
  | x :: xs => if strLe m.name x.name then m :: x :: xs else x :: insertByName m xs

/-- Model of `inspect.getmembers(obj)`: the instance's attributes sorted by
attribute name. -/
def getmembers (obj : PyInstance) : List Member :=
  obj.attrs.foldr insertByName []

/-- Model of `SourceMaker` (source_utils.py lines 22-27): the running list of
source lines. -/
structure SourceMaker where
  source : List Str
deriving DecidableEq

/-- Model of `SourceMaker.__init__`: start from the single line
`"class {}:".format(cls_name)`. -/
def SourceMaker.init (cls_name : Str) : SourceMaker :=
  ⟨[("class ".toList) ++ cls_name ++ [':']]⟩

/-- Model of `SourceMaker.add_method`: extend the line list with
`method_str.split("\n")`. -/
def SourceMaker.add_method (sm : SourceMaker) (method_str : Str) : SourceMaker :=
  ⟨sm.source ++ splitOnC '\n' method_str⟩

/-- Model of `_make_class_source` (source_utils.py lines 30-43): walk the
`getmembers` enumeration, add the source of every bound method or plain
function, and `"\n".join` the collected lines. -/
def make_class_source (obj : PyInstance) : Str :=
  let sm := (getmembers obj).foldl
    (fun sm m => if includedMember m then sm.add_method m.src else sm)
    (SourceMaker.init obj.clsName)
  joinC '\n' sm.source

/-- The first line `"class <name>:"` produced by `SourceMaker.__init__`. -/
def classHeader (obj : PyInstance) : Str :=
  ("class ".toList) ++ obj.clsName ++ [':']

/-- Python exceptions raised (or raisable) by `_make_source`: `NameError` for
an undefined name and `KeyError` for a failed registry lookup (the in-code
realization of `UnknownTypeTagError`). -/
inductive SynthExc where
  | nameError (n : Str)
  | keyError (k : Str)
deriving DecidableEq

/-- The fixed import preamble of `_make_source` (source_utils.py lines
67-75). -/
def importPreamble : List Str :=
  [("import torch".toList),
   ("import pandas as pd".toList),
   ("from google.cloud.aiplatform import training_util".toList),
   ("from google.cloud.aiplatform.experimental.vertex_model.serializers import *".toList)]

/-- The entry-point guard text `"if __name__ == '__main__':\n"` appended at
source_utils.py line 78 (appended directly to the joined text, with no
preceding newline). -/
def mainGuard : Str :=
  ("if __name__ == ".toList) ++ quoteC :: ("__main__".toList)
    ++ quoteC :: ':' :: '\n' :: []

/-- Model of `_make_source` (source_utils.py lines 46-106).  Lines 67-78
build the import preamble joined with the class source and append the
entry-point guard.  Line 81 then evaluates
`inspect.signature(obj.__class__.__init__).bind(*args, **kwargs)`, but no
names `args` and `kwargs` are in scope anywhere in the module, so every call
raises `NameError: name 'args' is not defined` before any text is returned;
the constructor rendering, the per-parameter deserializer loop (lines
91-99, which would index `obj._data_serialization_mapping[parameter_type]`,
here `registry`), and the pass-through loop are unreachable. -/
def make_source (cls_source _cls_name _instance_method : Str)
    (_pass_through_params : List (Str × Str))
    (_param_name_to_serialized_info : List (Str × (Str × Str)))
    (_registry : Str → Option Str) : Except SynthExc Str :=
  let src := joinC '\n' (importPreamble ++ [cls_source])
  let _src1 := src ++ mainGuard
  Except.error (.nameError ("args".toList))

lemma isPre_append_cons (p t : Str) (c : Char) (u : Str) (hc : c ∉ p)
    (h : isPre p (t ++ c :: u) = true) : isPre p t = true := by
  induction t generalizing p with
  | nil =>
    cases p with
    | nil => rfl
    | cons p0 ps =>
      simp only [List.nil_append, isPre] at h
      by_cases hcp : c = p0
      · exact absurd hcp (by intro he; exact hc (he ▸ List.mem_cons_self p0 ps))
      · simp [hcp] at h
  | cons a t ih =>
    cases p with
    | nil => rfl
    | cons p0 ps =>
      simp only [List.cons_append, isPre] at h ⊢
      by_cases hap : a = p0
      · simp only [hap, if_pos rfl] at h ⊢
        exact ih ps (fun hm => hc (List.mem_cons_of_mem _ hm)) h
      · simp [hap] at h

lemma mySuffix_cons (t : Str) :
    mySuffix t = 'm' :: 'y' :: '_' :: (t ++ ("_dataloader.pth".toList)) := rfl

lemma startsWithGs_append_mySuffix (t role : Str) (h : startsWithGs t = false) :
    startsWithGs (t ++ mySuffix role) = false := by
  cases hgs : startsWithGs (t ++ mySuffix role) with
  | false => rfl
  | true =>
    exfalso
    have h2 : isPre gsMark
        (t ++ 'm' :: ('y' :: '_' :: (role ++ ("_dataloader.pth".toList)))) = true := by
      rw [mySuffix_cons] at hgs
      exact hgs
    have h3 : startsWithGs t = true :=
      isPre_append_cons gsMark t 'm' _ (by decide) h2
    rw [h] at h3
    exact Bool.noConfusion h3

lemma serialize_dataloader_local (obj : DataLoader) (uri role : Str)
    (h1 : rootIsRemote (getRoot obj) = false) (h2 : startsWithGs uri = false) :
    serialize_dataloader uri obj role =
      ((uri ++ mySuffix role, getRoot obj),
       [Effect.saveLocal (uri ++ mySuffix role) obj]) := by
  simp [serialize_dataloader, serialize_local_dataloader, h1, h2]

lemma splitOnC_ne_nil (c : Char) (s : Str) : splitOnC c s ≠ [] := by
  induction s with
  | nil => simp [splitOnC]
  | cons a rest ih =>
    rw [splitOnC]
    split
    · simp
    · split <;> simp

lemma joinC_singleton (c : Char) (l : Str) : joinC c [l] = l := rfl

lemma joinC_cons_cons (c : Char) (l l2 : Str) (ls : List Str) :
    joinC c (l :: l2 :: ls) = l ++ c :: joinC c (l2 :: ls) := rfl

lemma joinC_splitOnC (c : Char) (s : Str) : joinC c (splitOnC c s) = s := by
  induction s with
  | nil => rfl
  | cons a rest ih =>
    rw [splitOnC]
    by_cases hac : a = c
    · rw [if_pos hac]
      cases hsp : splitOnC c rest with
      | nil => exact absurd hsp (splitOnC_ne_nil c rest)
      | cons l ls =>
        rw [hsp] at ih
        rw [joinC_cons_cons, ih, hac]
        rfl
    · rw [if_neg hac]
      cases hsp : splitOnC c rest with
      | nil => exact absurd hsp (splitOnC_ne_nil c rest)
      | cons l ls =>
        rw [hsp] at ih
        show joinC c ((a :: l) :: ls) = a :: rest
        cases ls with
        | nil =>
          rw [joinC_singleton] at ih
          rw [joinC_singleton, ih]
        | cons l2 ls2 =>
          rw [joinC_cons_cons] at ih
          rw [joinC_cons_cons, ← ih]
          rfl

lemma joinC_append (c : Char) (as bs : List Str) (ha : as ≠ []) (hb : bs ≠ []) :
    joinC c (as ++ bs) = joinC c as ++ c :: joinC c bs := by
  induction as with
  | nil => exact absurd rfl ha
  | cons l as2 ih =>
    cases as2 with
    | nil =>
      cases bs with
      | nil => exact absurd rfl hb
      | cons b bs2 =>
        rw [List.singleton_append, joinC_cons_cons, joinC_singleton]
    | cons l2 as3 =>
      have hstep : (l :: l2 :: as3) ++ bs = l :: ((l2 :: as3) ++ bs) := rfl
      rw [hstep]
      have hcons : (l2 :: as3) ++ bs = l2 :: (as3 ++ bs) := rfl
      rw [hcons, joinC_cons_cons, ← hcons, ih (by simp), joinC_cons_cons,
        List.append_assoc]
      rfl

lemma splitOnC_not_mem (c : Char) (s : Str) (h : c ∉ s) : splitOnC c s = [s] := by
  induction s with
  | nil => rfl
  | cons a rest ih =>
    rw [splitOnC]
    have hac : ¬ a = c := by
      intro he
      subst he
      exact h (List.mem_cons_self a rest)
    rw [if_neg hac, ih (fun hm => h (List.mem_cons_of_mem _ hm))]

lemma splitOnC_append_cons (c : Char) (xs t : Str) (h : c ∉ xs) :
    splitOnC c (xs ++ c :: t) = xs :: splitOnC c t := by
  induction xs with
  | nil => simp [splitOnC]
  | cons a xs2 ih =>
    rw [List.cons_append, splitOnC]
    have hac : ¬ a = c := by
      intro he
      subst he
      exact h (List.mem_cons_self a xs2)
    rw [if_neg hac, ih (fun hm => h (List.mem_cons_of_mem _ hm))]

lemma joinC_source_fold (ms : List Member) (acc : List Str) (hacc : acc ≠ []) :
    joinC '\n' ((ms.foldl
        (fun sm m => if includedMember m then sm.add_method m.src else sm)
        (⟨acc⟩ : SourceMaker)).source)
      = joinC '\n' acc
        ++ List.flatten ((ms.filter includedMember).map (fun m => '\n' :: m.src)) := by
  induction ms generalizing acc with
  | nil => simp
  | cons m ms2 ih =>
    cases hm : includedMember m with
    | true =>
      rw [List.foldl_cons, if_pos hm]
      rw [show (⟨acc⟩ : SourceMaker).add_method m.src
            = (⟨acc ++ splitOnC '\n' m.src⟩ : SourceMaker) from rfl]
      rw [ih _ (by simp [hacc]),
        joinC_append '\n' acc (splitOnC '\n' m.src) hacc (splitOnC_ne_nil _ _),
        joinC_splitOnC]
      simp [hm, List.append_assoc]
    | false =>
      rw [List.foldl_cons, if_neg (by simp [hm]), ih _ hacc]
      simp [hm]

lemma newline_not_mem_classHeader (obj : PyInstance) (h : '\n' ∉ obj.clsName) :
    '\n' ∉ classHeader obj := by
  intro hmem
  rcases List.mem_append.mp hmem with h1 | h1
  · rcases List.mem_append.mp h1 with h2 | h2
    · revert h2; decide
    · exact h h2
  · revert h1; decide

/-- Concrete DataLoader with a dataset read from a local path, used by
witnesses. -/
def dlTrainLocal : DataLoader :=
  ⟨⟨some (some ("/data/train.csv".toList)), [1, 2]⟩, 4, true⟩

/-- Concrete DataLoader whose dataset carries an empty-string `root`. -/
def dlEmptyRoot : DataLoader :=
  ⟨⟨some (some []), [3]⟩, 2, false⟩

/-- Concrete DataLoader whose dataset has no `root` attribute at all. -/
def dlNoRoot : DataLoader :=
  ⟨⟨none, [7, 8]⟩, 8, true⟩

/-- Concrete environment whose `torch.load` always raises `ValueError` and
whose downloads succeed, used by witnesses and counterexamples. -/
def envBad : TorchEnv :=
  ⟨fun _ => .error (.valueError ("bad".toList)), fun _ _ => .ok ()⟩

/-- Concrete environment whose external steps all succeed on nothing in
particular: every load fails with an adapter (network) error. -/
def envNet : TorchEnv :=
  ⟨fun _ => .error (.networkError ("http 503".toList)), fun _ _ => .ok ()⟩

/-- Whether a deserialization result is a raised `RuntimeError` (the on-wire
realization of `ArtifactLoadError`). -/
def isRuntimeErrRes : Except PyErr DataLoader → Bool
  | .error (.runtimeError _) => true
  | _ => false

/-- Concrete registry mapping the `dataloader` tag to its deserializer name,
used by the synthesis fixtures. -/
def regDemo : Str → Option Str :=
  fun t =>
    if t = ("dataloader".toList) then some ("_deserialize_dataloader".toList)
    else none

/-- Concrete live instance for the source-inspection witness: two bound
methods and one non-callable attribute, deliberately listed out of name
order. -/
def objDemo : PyInstance :=
  ⟨("MyModel".toList),
   [⟨("predict".toList), ("def predict(self):\n    return 1\n".toList), .boundMethod⟩,
    ⟨("weights".toList), [], .nonCallable⟩,
    ⟨("fit".toList), ("def fit(self):\n    pass\n".toList), .boundMethod⟩]⟩

/-- C1 (counterexample): the claimed equivalence "origin_location is non-null
iff the input artifact had a non-null origin" fails on the code.  A dataset
whose `root` attribute holds the empty string is a non-null origin, yet with
a remote target the truthiness test `if dataloader_path:` at pytorch.py line
109 sends it to the origin-absent branch and `origin_location` comes back
`None`. -/
theorem c1_origin_iff_counterexample :
    (serialize_dataloader ("gs://bkt/out/".toList) dlEmptyRoot
        ("training".toList)).1.2 = none
    ∧ getRoot dlEmptyRoot ≠ none := by
  decide

/-- C1 (amended): origin_location is non-null iff the input artifact's origin
is non-null, except that an empty-string origin together with a remote
target yields a null origin_location (the empty string is falsy). -/
theorem c1_origin_iff_amended (obj : DataLoader) (uri role : Str) :
    (serialize_dataloader uri obj role).1.2 ≠ none
      ↔ (getRoot obj ≠ none
          ∧ ¬(startsWithGs uri = true ∧ getRoot obj = some [])) := by
  rcases hr : getRoot obj with _ | r
  · cases hu : startsWithGs uri <;>
      simp [serialize_dataloader, serialize_local_dataloader, rootIsRemote,
        truthy, hr, hu]
  · cases r with
    | nil =>
      cases hu : startsWithGs uri <;>
        simp [serialize_dataloader, serialize_local_dataloader, rootIsRemote,
          truthy, hr, hu]
    | cons c r2 =>
      cases hgr : startsWithGs (c :: r2) with
      | true =>
        simp [serialize_dataloader, serialize_remote_dataloader, rootIsRemote,
          hr, hgr]
      | false =>
        cases hu : startsWithGs uri <;>
          simp [serialize_dataloader, serialize_local_dataloader, rootIsRemote,
            truthy, hr, hgr, hu]

/-- C2: for a local origin and a local target, deserializing the returned
artifact_location round-trips the DataLoader: the artifact is saved by
`torch.save` at `target ++ "my_" ++ role ++ "_dataloader.pth"` and
`torch.load` of that same path on the post-save filesystem returns the very
same object (hence equal dataset contents and iteration configuration). -/
theorem c2_local_roundtrip (obj : DataLoader) (t role : Str) (env : TorchEnv)
    (st : FsState)
    (h1 : rootIsRemote (getRoot obj) = false)
    (h2 : startsWithGs t = false) :
    (serialize_dataloader t obj role).1.1 = t ++ mySuffix role
    ∧ deserialize_dataloader
        ⟨applyEffects (serialize_dataloader t obj role).2 env.load, env.download⟩
        (serialize_dataloader t obj role).1.1 st
      = (Except.ok obj, st) := by
  have hs := serialize_dataloader_local obj t role h1 h2
  rw [hs]
  refine ⟨rfl, ?_⟩
  have hng := startsWithGs_append_mySuffix t role h2
  simp [deserialize_dataloader, hng, applyEffects]

/-- C2 witness: concrete local round trip at target `/tmp/out/` with role
`training`. -/
theorem c2_local_roundtrip_witness :
    (serialize_dataloader ("/tmp/out/".toList) dlTrainLocal
        ("training".toList)).1.1
      = ("/tmp/out/".toList) ++ mySuffix ("training".toList)
    ∧ deserialize_dataloader
        ⟨applyEffects
            (serialize_dataloader ("/tmp/out/".toList) dlTrainLocal
              ("training".toList)).2 envNet.load,
          envNet.download⟩
        (serialize_dataloader ("/tmp/out/".toList) dlTrainLocal
          ("training".toList)).1.1 ⟨[], 0⟩
      = (Except.ok dlTrainLocal, ⟨[], 0⟩) :=
  c2_local_roundtrip dlTrainLocal ("/tmp/out/".toList) ("training".toList)
    envNet ⟨[], 0⟩ (by decide) (by decide)

/-- C7: with a local origin and a local target the artifact is saved to the
string concatenation of the target root and `my_<role>_dataloader.pth`, the
origin is returned unchanged, and the only side effect is that single local
save: no copy of the origin data and no upload. -/
theorem c7_local_serialize (obj : DataLoader) (uri role : Str)
    (h1 : rootIsRemote (getRoot obj) = false)
    (h2 : startsWithGs uri = false) :
    serialize_dataloader uri obj role =
      ((uri ++ mySuffix role, getRoot obj),
       [Effect.saveLocal (uri ++ mySuffix role) obj]) :=
  serialize_dataloader_local obj uri role h1 h2

/-- C7 witness: a concrete local-origin local-target serialization. -/
theorem c7_local_serialize_witness :
    serialize_dataloader ("/tmp/out/".toList) dlTrainLocal ("testing".toList) =
      ((("/tmp/out/".toList) ++ mySuffix ("testing".toList),
        getRoot dlTrainLocal),
       [Effect.saveLocal (("/tmp/out/".toList) ++ mySuffix ("testing".toList))
          dlTrainLocal]) :=
  c7_local_serialize dlTrainLocal ("/tmp/out/".toList) ("testing".toList)
    (by decide) (by decide)

/-- C10: a dataset with no `root` attribute at all is read through
`getattr(my_dataset, "root", None)` as a null origin; serialization is total
on it, dispatches to the local-origin helper with a `None` origin path, and
returns a null origin_location for every target. -/
theorem c10_missing_root (obj : DataLoader) (uri role : Str)
    (h : obj.dataset.rootAttr = none) :
    serialize_dataloader uri obj role = serialize_local_dataloader uri none obj role
    ∧ (serialize_dataloader uri obj role).1.2 = none := by
  have hr : getRoot obj = none := by simp [getRoot, h]
  refine ⟨?_, ?_⟩
  · simp [serialize_dataloader, hr, rootIsRemote]
  · cases hu : startsWithGs uri <;>
      simp [serialize_dataloader, serialize_local_dataloader, hr,
        rootIsRemote, truthy, hu]

/-- C10 witness: a concrete rootless dataset serialized to a remote target. -/
theorem c10_missing_root_witness :
    serialize_dataloader ("gs://bkt/data/".toList) dlNoRoot ("testing".toList)
      = serialize_local_dataloader ("gs://bkt/data/".toList) none dlNoRoot
          ("testing".toList)
    ∧ (serialize_dataloader ("gs://bkt/data/".toList) dlNoRoot
        ("testing".toList)).1.2 = none :=
  c10_missing_root dlNoRoot ("gs://bkt/data/".toList) ("testing".toList) rfl

/-- C3 (counterexample): the claim says load failures are wrapped "across
either storage class, local as well as remote", but the
`except (ValueError, RuntimeError)` handler only surrounds the remote
branch; a failing `torch.load` at a local location (pytorch.py line 178)
propagates the raw error, with no `RuntimeError` wrapper, no location in the
message. -/
theorem c3_wrap_counterexample :
    (deserialize_dataloader envBad ("/tmp/model.pth".toList) ⟨[], 0⟩).1
      = Except.error (.valueError ("bad".toList))
    ∧ isRuntimeErrRes
        (deserialize_dataloader envBad ("/tmp/model.pth".toList) ⟨[], 0⟩).1
      = false := by
  decide

/-- C3 (amended): the wrapping applies only to the remote storage class.
For a local location the load result is returned as is, errors included.
For a remote location a `ValueError`/`RuntimeError` raised by the
download-and-load body is re-raised as a `RuntimeError` whose message embeds
the original location and the cause message; every other error (such as the
object-store adapter's network failures) propagates unmodified. -/
theorem c3_wrap_amended (env : TorchEnv) (uri : Str) (st : FsState) :
    (startsWithGs uri = false →
      (deserialize_dataloader env uri st).1 = env.load uri)
    ∧ (startsWithGs uri = true → ∀ e : PyErr,
        remoteBody env uri st = .error e → e.isCaught = true →
        (deserialize_dataloader env uri st).1
          = Except.error (.runtimeError (wrapMsg uri e)))
    ∧ (startsWithGs uri = true → ∀ e : PyErr,
        remoteBody env uri st = .error e → e.isCaught = false →
        (deserialize_dataloader env uri st).1 = Except.error e) := by
  refine ⟨?_, ?_, ?_⟩
  · intro h
    simp [deserialize_dataloader, h]
  · intro h e he hc
    simp [deserialize_dataloader, h, handleRemoteErr, he, hc]
  · intro h e he hc
    simp [deserialize_dataloader, h, handleRemoteErr, he, hc]

/-- C3 witness: a remote load failure is re-raised wrapped, and a remote
network failure propagates unmodified. -/
theorem c3_wrap_witness :
    (deserialize_dataloader envBad ("gs://b/m.pth".toList) ⟨[], 0⟩).1
      = Except.error (.runtimeError (wrapMsg ("gs://b/m.pth".toList)
          (.valueError ("bad".toList))))
    ∧ (deserialize_dataloader envNet ("gs://b/m.pth".toList) ⟨[], 0⟩).1
      = Except.error (.networkError ("http 503".toList)) :=
  ⟨(c3_wrap_amended envBad ("gs://b/m.pth".toList) ⟨[], 0⟩).2.1 (by decide)
      (.valueError ("bad".toList)) (by decide) (by decide),
   (c3_wrap_amended envNet ("gs://b/m.pth".toList) ⟨[], 0⟩).2.2 (by decide)
      (.networkError ("http 503".toList)) (by decide) (by decide)⟩

/-- C8: for every remote location and every outcome of the download and load
steps (success, caught failure, or uncaught failure), the temporary
directory allocated for the download has been removed again by the time
control returns: the final set of live temporary directories equals the
initial one. -/
theorem c8_tempdir_cleanup (env : TorchEnv) (uri : Str) (st : FsState)
    (h : startsWithGs uri = true) :
    ((deserialize_dataloader env uri st).2).tempDirs = st.tempDirs := by
  simp [deserialize_dataloader, h]

/-- C8 witness: a failing remote load leaves no temporary directory behind. -/
theorem c8_tempdir_cleanup_witness :
    ((deserialize_dataloader envBad ("gs://b/m.pth".toList) ⟨[], 0⟩).2).tempDirs
      = [] :=
  c8_tempdir_cleanup envBad ("gs://b/m.pth".toList) ⟨[], 0⟩ (by decide)

/-- C6: with a truthy local origin and a remote target, the origin file is
uploaded under `<role>_<basename of origin>` joined below the target's
blob-path part, origin_location is the remote URI of that blob, and the
artifact goes through the temp-file upload under the prefix-joined
`my_<role>_dataloader.pth` name. -/
theorem c6_remote_target_upload (obj : DataLoader) (uri role r b p : Str)
    (hroot : getRoot obj = some r) (hr1 : r ≠ [])
    (hr2 : startsWithGs r = false)
    (hu : startsWithGs uri = true)
    (hx : extract_bucket_and_pre uri = (b, some p)) (hp : p ≠ []) :
    serialize_dataloader uri obj role =
      ((gsUri b (p ++ '/' :: mySuffix role),
        some (gsUri b (p ++ '/' :: (role ++ '_' :: basename r)))),
       [Effect.uploadFromFile b (p ++ '/' :: (role ++ '_' :: basename r)) r,
        Effect.tmpUpload b (p ++ '/' :: mySuffix role) obj]) := by
  simp [serialize_dataloader, serialize_local_dataloader, rootIsRemote,
    truthy, hroot, hr1, hr2, hu, hx, hp, serialize_to_tmp_and_copy_to_gcs]

/-- C6 witness: the exact example of the specification,
`serialize("gs://bkt/out/", artifact with local origin "/data/train.csv",
"training")`. -/
theorem c6_remote_target_upload_witness :
    serialize_dataloader ("gs://bkt/out/".toList) dlTrainLocal
        ("training".toList)
      = ((("gs://bkt/out/my_training_dataloader.pth".toList),
          some ("gs://bkt/out/training_train.csv".toList)),
         [Effect.uploadFromFile ("bkt".toList)
            ("out/training_train.csv".toList) ("/data/train.csv".toList),
          Effect.tmpUpload ("bkt".toList)
            ("out/my_training_dataloader.pth".toList) dlTrainLocal]) := by
  have h := c6_remote_target_upload dlTrainLocal ("gs://bkt/out/".toList)
    ("training".toList) ("/data/train.csv".toList) ("bkt".toList)
    ("out".toList) (by decide) (by decide) (by decide) (by decide)
    (by decide) (by decide)
  rw [h]
  decide

/-- C9: the extracted class source is exactly the header line
`class <runtime class name>:` followed, each on fresh lines, by the source
text of the bound methods and plain functions in the name-sorted order of
the `getmembers` enumeration; attributes classified as neither contribute
nothing.  In particular the first line of the text is the header. -/
theorem c9_class_source (obj : PyInstance) (h : '\n' ∉ obj.clsName) :
    make_class_source obj
      = classHeader obj
        ++ List.flatten (((getmembers obj).filter includedMember).map
            (fun m => '\n' :: m.src))
    ∧ (splitOnC '\n' (make_class_source obj)).head? = some (classHeader obj) := by
  have hmain : make_class_source obj
      = classHeader obj
        ++ List.flatten (((getmembers obj).filter includedMember).map
            (fun m => '\n' :: m.src)) := by
    simp only [make_class_source]
    rw [show SourceMaker.init obj.clsName = (⟨[classHeader obj]⟩ : SourceMaker) from rfl,
      joinC_source_fold (getmembers obj) [classHeader obj] (by simp),
      joinC_singleton]
  refine ⟨hmain, ?_⟩
  rw [hmain]
  have hh : '\n' ∉ classHeader obj := newline_not_mem_classHeader obj h
  cases hf : (getmembers obj).filter includedMember with
  | nil =>
    simp only [hf, List.map_nil, List.flatten_nil, List.append_nil]
    rw [splitOnC_not_mem _ _ hh]
    rfl
  | cons m rest =>
    simp only [List.map_cons, List.flatten_cons]
    show (splitOnC '\n' (classHeader obj
        ++ '\n' :: (m.src
              ++ List.flatten (List.map (fun m => '\n' :: m.src) rest)))).head?
      = some (classHeader obj)
    rw [splitOnC_append_cons '\n' (classHeader obj) _ hh]
    rfl

/-- C9 witness: a concrete instance with two bound methods (listed out of
name order) and one non-callable attribute. -/
theorem c9_class_source_witness :
    make_class_source objDemo
      = classHeader objDemo
        ++ List.flatten (((getmembers objDemo).filter includedMember).map
            (fun m => '\n' :: m.src))
    ∧ (splitOnC '\n' (make_class_source objDemo)).head?
        = some (classHeader objDemo) :=
  c9_class_source objDemo (by decide)

/-- C4: the claimed per-parameter deserializer invocations can never be
emitted: `_make_source` evaluates the undefined names `args` and `kwargs` at
source_utils.py line 81 and raises `NameError` on every call, before the
parameter loop (lines 91-99) that performs the registry lookup is reached —
even when every parameter's type tag is registered, as here. -/
theorem c4_synthesis_unreachable :
    make_source ("class MyModel:".toList) ("MyModel".toList) ("fit".toList)
      [] [(("data".toList), (("gs://b/x.pth".toList), ("dataloader".toList)))]
      regDemo
      = Except.error (.nameError ("args".toList)) := rfl

/-- C5: no script text is ever produced: every call of `_make_source` raises
`NameError` for the undefined name `args` at source_utils.py line 81, here
shown on a request with no parameters at all. -/
theorem c5_script_never_produced :
    make_source ("class MyModel:".toList) ("MyModel".toList)
      ("predict".toList) [] [] (fun _ => none)
      = Except.error (.nameError ("args".toList)) := rfl
